import Mathlib

/-!
Verification of the Claude-Relay-Meter VSCode extension sources.

The embedding below translates the relevant TypeScript functions into Lean:

* `src/services/api.ts` — `validateApiConfig`, `fetchRelayStatsWithRetry`
  (the retry loop is modelled as a fuel recursion that also records the
  observable trace of network calls and timed waits);
* `src/utils/formatter.ts` — the arithmetic core of `formatNumber`,
  `formatPercentage`, `formatCost`, `formatStatusBarText` over ℚ, with the
  final number-to-string rendering abstracted as a `render : ℚ → String`
  parameter (JavaScript `Math.round(x)` is modelled as `⌊x + 1/2⌋`);
* the extension entry file (`updateStats`) and the Claude-settings watcher
  (`checkAndHandleConfigChange`, `promptUserChoice`, `applyNewConfig`,
  `disableWatching`) — modelled as pure state transformers producing a list
  of user-visible effects; logging is an out-of-scope collaborator and is
  not recorded as an effect.

Platform builtins that the sources call are modelled explicitly:
`new URL(...)` as `urlProtocolModel` (restricted to scheme extraction, the
only part the sources inspect), and the host configuration store as fields
of `WatchState`.
-/

namespace RelayMeter

/-- Which configuration field `validateApiConfig` reports as missing. -/
inductive MissingConfig where
  | apiUrl
  | apiId
  | both
deriving DecidableEq, Repr

/-- Result record of `validateApiConfig` in `src/services/api.ts`. -/
structure ValidationResult where
  valid : Bool
  message : Option String
  missingConfig : Option MissingConfig
deriving DecidableEq, Repr

/-- JavaScript emptiness test used throughout the sources:
`!s || s.trim() === ''` — equivalently, every character of the string is
whitespace (the `!s` disjunct only adds the empty string, which the trim
test already covers). Kept structural over the character list so proofs
can evaluate it. -/
def isBlank (s : String) : Bool := s.toList.all Char.isWhitespace

/-- Split a character list on a single separator character (the structural
counterpart of `String.splitOn` with a one-character separator). -/
def splitOnChar (sep : Char) : List Char → List (List Char)
  | [] => [[]]
  | c :: cs =>
    if c == sep then [] :: splitOnChar sep cs
    else
      match splitOnChar sep cs with
      | [] => [[c]]
      | h :: t => (c :: h) :: t

/-- Structural counterpart of `List.IsPrefix` as a Bool: does the second
list begin with the first? -/
def leadChars : List Char → List Char → Bool
  | [], _ => true
  | _ :: _, [] => false
  | p :: ps, c :: cs => p == c && leadChars ps cs

/-- Structural counterpart of `String.startsWith s p`: does `s` begin with
`p`? -/
def strStartsWith (s p : String) : Bool := leadChars p.toList s.toList

/-- Hexadecimal digit, as accepted by the case-insensitive UUID regex. -/
def isHexDigit (c : Char) : Bool := "0123456789abcdefABCDEF".toList.contains c

/-- Emptiness test for the optional `apiKey` parameter:
`!apiKey || apiKey.trim() === ''`. -/
def optBlank : Option String → Bool
  | none => true
  | some s => isBlank s

/-- The UUID test of `validateApiConfig`: the regex
`/^[0-9a-f]\x7b8\x7d-[0-9a-f]\x7b4\x7d-[0-9a-f]\x7b4\x7d-[0-9a-f]\x7b4\x7d-[0-9a-f]\x7b12\x7d$/i`
holds exactly when splitting on the dash yields five runs of hex digits of
lengths 8, 4, 4, 4, 12 (hex digits never contain a dash). -/
def isUuid (s : String) : Bool :=
  match splitOnChar '-' s.toList with
  | [a, b, c, d, e] =>
    a.length == 8 && b.length == 4 && c.length == 4 && d.length == 4 && e.length == 12 &&
    (a ++ b ++ c ++ d ++ e).all isHexDigit
  | _ => false

/-- Valid first character of a URL scheme (WHATWG). -/
def isSchemeStartChar (c : Char) : Bool := c.isAlpha

/-- Valid non-first character of a URL scheme (WHATWG). -/
def isSchemeChar (c : Char) : Bool := c.isAlphanum || c == '+' || c == '-' || c == '.'

/-- The WHATWG special schemes, which require an authority component. -/
def specialSchemes : List String := ["ftp", "file", "http", "https", "ws", "wss"]

/-- Model of the platform `new URL(s)` constructor, restricted to the only
observation the sources make of it: whether construction succeeds, and the
resulting `protocol` string (lower-cased scheme followed by a colon).
A string parses when it starts with a syntactically valid scheme followed
by a colon; special schemes additionally require a `//`-authority. -/
def urlProtocolModel (s : String) : Option String :=
  match splitOnChar ':' s.toList with
  | [] => none
  | [_] => none
  | scheme :: rest =>
    match scheme with
    | [] => none
    | c :: cs =>
      if isSchemeStartChar c && cs.all isSchemeChar then
        let lower := (c :: cs).map Char.toLower
        let remainder := List.intercalate [':'] rest
        if (specialSchemes.map String.toList).contains lower then
          if leadChars ['/', '/'] remainder && remainder.length > 2 then
            some (String.mk (lower ++ [':']))
          else none
        else some (String.mk (lower ++ [':']))
      else none

/-- `validateApiConfig(apiUrl, apiId, apiKey?)` from `src/services/api.ts`,
parameterised by the URL parser (`parseProtocol` returns the `protocol` of
`new URL(apiUrl)` when construction succeeds, `none` when it throws). -/
def validateApiConfig (parseProtocol : String → Option String)
    (apiUrl apiId : String) (apiKey : Option String) : ValidationResult :=
  let urlMissing := isBlank apiUrl
  let idMissing := isBlank apiId
  let keyMissing := optBlank apiKey
  if urlMissing then
    if idMissing && keyMissing then
      ⟨false, some "API URL 和 API ID/Key 都未配置，请在设置中配置", some MissingConfig.both⟩
    else
      ⟨false, some "API URL 不能为空，请在设置中配置", some MissingConfig.apiUrl⟩
  else
    match parseProtocol apiUrl with
    | none => ⟨false, some "API URL 格式无效", some MissingConfig.apiUrl⟩
    | some protocol =>
      if !(strStartsWith protocol "http") then
        ⟨false, some "API URL 必须是有效的 HTTP 或 HTTPS 地址", some MissingConfig.apiUrl⟩
      else if idMissing && keyMissing then
        ⟨false, some "API ID 或 API Key 至少需要配置一个，请在设置中配置", some MissingConfig.apiId⟩
      else if !idMissing && !(isUuid apiId) then
        ⟨false, some "API ID 格式无效，应为 UUID 格式（例如：34arr92a-cb42-58op-56op-ggy15rt9878c）",
          some MissingConfig.apiId⟩
      else
        ⟨true, none, none⟩

/-- One observable step of the refresh pipeline: the key→id resolution
request (`POST apiUrl/apiStats/api/get-key-id` carrying `apiKey`), a stats
request (`POST apiUrl/apiStats/api/user-stats` carrying `apiId`), or a
timed wait of the backoff loop. -/
inductive Call where
  | resolveId (apiUrl apiKey : String)
  | fetchStats (apiUrl apiId : String)
  | wait (ms : Nat)
deriving DecidableEq, Repr

/-- The error thrown after the retry loop exhausts its budget:
`API 请求失败，已重试 $(maxRetries) 次。最后错误：$(lastError?.message)`
(with JavaScript rendering `undefined` when no error was recorded). -/
def retryFailMsg (maxRetries : Nat) (lastErr : Option String) : String :=
  "API 请求失败，已重试 " ++ toString maxRetries ++ " 次。最后错误：" ++ lastErr.getD "undefined"

/-- The loop body of `fetchRelayStatsWithRetry`. The per-attempt outcome of
the underlying `fetchRelayStats` is supplied as `fetch : Nat → Except String α`
(indexed by the 1-based attempt number). `remaining` is the loop fuel,
`maxRetries + 1 - attempt` at every call, so the source's continuation test
`attempt < maxRetries` is exactly `remaining ≠ 0` after this attempt.
The trace records each attempt and, after a failure with attempts left,
the `setTimeout` wait for the current `delay` before `delay` doubles. -/
def retryGo (apiUrl apiId : String) (fetch : Nat → Except String α) (maxRetries : Nat) :
    Nat → Nat → Nat → Option String → List Call × Except String α
  | 0, _, _, lastErr => ([], Except.error (retryFailMsg maxRetries lastErr))
  | remaining + 1, attempt, delay, _ =>
    match fetch attempt with
    | Except.ok v => ([Call.fetchStats apiUrl apiId], Except.ok v)
    | Except.error e =>
      if remaining = 0 then
        ([Call.fetchStats apiUrl apiId], Except.error (retryFailMsg maxRetries (some e)))
      else
        let rest := retryGo apiUrl apiId fetch maxRetries remaining (attempt + 1) (delay * 2) (some e)
        (Call.fetchStats apiUrl apiId :: Call.wait delay :: rest.1, rest.2)

/-- `fetchRelayStatsWithRetry(apiUrl, apiId, maxRetries, retryDelay)` from
`src/services/api.ts`, returning the trace of attempts and waits together
with the final outcome. -/
def fetchRelayStatsWithRetry (apiUrl apiId : String) (fetch : Nat → Except String α)
    (maxRetries retryDelay : Nat) : List Call × Except String α :=
  retryGo apiUrl apiId fetch maxRetries maxRetries 1 retryDelay none

/-- Is this trace entry a stats request? -/
def isFetchCall : Call → Bool
  | Call.fetchStats _ _ => true
  | _ => false

/-- Is this trace entry a key→id resolution request? -/
def isResolveCall : Call → Bool
  | Call.resolveId _ _ => true
  | _ => false

/-- Number of stats requests (attempts) in a trace. -/
def fetchCount (t : List Call) : Nat := t.countP isFetchCall

/-- Number of key→id resolution requests in a trace. -/
def resolveCount (t : List Call) : Nat := t.countP isResolveCall

/-- The successive wait durations of a trace, in order. -/
def traceWaits (t : List Call) : List Nat :=
  t.filterMap fun c => match c with | Call.wait d => some d | _ => none

/-- The trace the retry loop produces when every one of `r` remaining
attempts fails: attempts interleaved with doubling waits, no wait after the
final attempt. -/
def allFailTrace (apiUrl apiId : String) : Nat → Nat → List Call
  | 0, _ => []
  | r + 1, delay =>
    if r = 0 then [Call.fetchStats apiUrl apiId]
    else Call.fetchStats apiUrl apiId :: Call.wait delay :: allFailTrace apiUrl apiId r (delay * 2)

/-- `j` failed attempts, each followed by its backoff wait (used as the
prefix of a trace that ends in a successful attempt). -/
def failWaitTrace (apiUrl apiId : String) : Nat → Nat → List Call
  | 0, _ => []
  | j + 1, delay =>
    Call.fetchStats apiUrl apiId :: Call.wait delay :: failWaitTrace apiUrl apiId j (delay * 2)

/-- The extension configuration fields `updateStats` reads
(`relayMeter.apiUrl` / `apiId` / `apiKey`, each defaulting to `""`). -/
structure PluginConfig where
  apiUrl : String
  apiId : String
  apiKey : String
deriving DecidableEq, Repr

/-- How one `updateStats` refresh cycle ends: configuration prompt shown,
error status shown, or data rendered to the status bar. -/
inductive UpdateOutcome (α : Type) where
  | configPrompt (missing : Option MissingConfig)
  | failed (msg : String)
  | rendered (data : α)
deriving DecidableEq, Repr

/-- `updateStats` from the extension entry file: validate the configuration,
resolve the API id through `getApiIdFromKey` when `apiId` is blank but
`apiKey` is present (`resolve` is that call's outcome), then fetch with
3 attempts and 1000 ms initial delay. A thrown resolution error is wrapped
as `无法通过 API Key 获取 API ID：...` and caught by the surrounding
handler, which shows the error status. -/
def updateStats (parseProtocol : String → Option String) (cfg : PluginConfig)
    (resolve : Except String String) (fetch : Nat → Except String α) :
    List Call × UpdateOutcome α :=
  let validation := validateApiConfig parseProtocol cfg.apiUrl cfg.apiId (some cfg.apiKey)
  if validation.valid = false then
    ([], UpdateOutcome.configPrompt validation.missingConfig)
  else if isBlank cfg.apiId && !(isBlank cfg.apiKey) then
    match resolve with
    | Except.error e =>
      ([Call.resolveId cfg.apiUrl cfg.apiKey],
       UpdateOutcome.failed ("无法通过 API Key 获取 API ID：" ++ e))
    | Except.ok id =>
      let r := fetchRelayStatsWithRetry cfg.apiUrl id fetch 3 1000
      (Call.resolveId cfg.apiUrl cfg.apiKey :: r.1,
       match r.2 with
       | Except.ok v => UpdateOutcome.rendered v
       | Except.error m => UpdateOutcome.failed m)
  else
    let r := fetchRelayStatsWithRetry cfg.apiUrl cfg.apiId fetch 3 1000
    (r.1,
     match r.2 with
     | Except.ok v => UpdateOutcome.rendered v
     | Except.error m => UpdateOutcome.failed m)

/-- A credentials pair as handled by the settings reconciler
(`ConfigManager.Config`: `apiKey` and `apiUrl`, both strings). -/
structure Config where
  apiKey : String
  apiUrl : String
deriving DecidableEq, Repr

/-- What `readClaudeSettings()` yields from `~/.claude/settings.json`:
either field may be absent (`none`) or present (possibly empty). -/
structure ClaudeSettings where
  apiKey : Option String
  apiUrl : Option String
deriving DecidableEq, Repr

/-- The process-wide state the watcher observes and mutates: whether the
`fs.watch` handle is open, the persisted `relayMeter.watchClaudeSettings`
flag, and the credentials currently stored in the VSCode settings
(read through `ConfigManager.getVSCodeConfig`, written through
`ConfigManager.updateVSCodeConfig`). -/
structure WatchState where
  watcherActive : Bool
  watchEnabled : Bool
  vsConfig : Option Config
deriving DecidableEq, Repr

/-- User-visible effects the watcher can produce (log lines are an
out-of-scope collaborator and are not recorded). The prompt effect carries
the two configurations the shown message is built from. -/
inductive Effect where
  | prompt (newConfig : Config) (currentConfig : Option Config)
  | showInfo (message : String)
  | openSettings
  | refresh
deriving DecidableEq, Repr

/-- Button label `使用新配置` of the reconciliation prompt. -/
def useNewConfigButton : String := "使用新配置"

/-- Button label `保持当前配置` of the reconciliation prompt. -/
def keepCurrentConfigButton : String := "保持当前配置"

/-- Button label `设置` of the reconciliation prompt. -/
def openSettingsButton : String := "设置"

/-- Modelled from the spec: `ConfigManager.compareConfigs` (the
`configManager` module is not among the sources) — "diff against currently
active settings (field-by-field string equality)"; an absent current
configuration compares unequal. -/
def compareConfigs (a : Config) (b : Option Config) : Bool :=
  match b with
  | none => false
  | some c => a.apiKey == c.apiKey && a.apiUrl == c.apiUrl

/-- `applyNewConfig` of the watcher: write the new credentials into the
VSCode settings, show the confirmation message, invoke the refresh
callback. The write through the host settings API is modelled as
succeeding. -/
def applyNewConfig (newConfig : Config) (s : WatchState) : WatchState × List Effect :=
  ({ s with vsConfig := some newConfig },
   [Effect.showInfo "配置已更新", Effect.refresh])

/-- `disableWatching` of the watcher: persist the watch flag as `false`
(`ConfigManager.setWatchEnabled(false)`), close the `fs.watch` handle
(`stopWatching`), show the notice. -/
def disableWatching (s : WatchState) : WatchState × List Effect :=
  ({ s with watchEnabled := false, watcherActive := false },
   [Effect.showInfo "已关闭 Claude Settings 监听,如需重新开启请到设置中启用「监听 Claude Settings 变动」"])

/-- `promptUserChoice` of the watcher. `choice` is what
`showInformationMessage` resolved to: one of the three button labels, or
`none` when the prompt was dismissed without a selection. The source
branches are: `choice === useNewConfigButton` → apply;
`!choice || choice === keepCurrentConfigButton` → `disableWatching()`;
`choice === openSettingsButton` → open the settings UI. -/
def promptUserChoice (newConfig : Config) (currentConfig : Option Config)
    (choice : Option String) (s : WatchState) : WatchState × List Effect :=
  let shown : List Effect := [Effect.prompt newConfig currentConfig]
  if choice == some useNewConfigButton then
    let r := applyNewConfig newConfig s
    (r.1, shown ++ r.2)
  else if choice == none || choice == some keepCurrentConfigButton then
    let r := disableWatching s
    (r.1, shown ++ r.2)
  else if choice == some openSettingsButton then
    (s, shown ++ [Effect.openSettings])
  else
    (s, shown)

/-- `checkAndHandleConfigChange` of the watcher. `read` is the outcome of
`readClaudeSettings()` (`Except.error` when it throws — the surrounding
`try/catch` turns that into a log line only). A file whose `apiKey` or
`apiUrl` is absent or empty (`!claudeSettings.apiKey ||
!claudeSettings.apiUrl`) is skipped; an unchanged configuration is
skipped; otherwise the user is prompted. -/
def checkAndHandleConfigChange (read : Except String ClaudeSettings)
    (choice : Option String) (s : WatchState) : WatchState × List Effect :=
  match read with
  | Except.error _ => (s, [])
  | Except.ok cs =>
    match cs.apiKey, cs.apiUrl with
    | some k, some u =>
      if k == "" || u == "" then (s, [])
      else
        let newConfig : Config := ⟨k, u⟩
        if compareConfigs newConfig s.vsConfig then (s, [])
        else promptUserChoice newConfig s.vsConfig choice s
    | _, _ => (s, [])

/-- JavaScript `Math.round`: round half toward positive infinity. -/
def jsRound (x : ℚ) : ℤ := Int.floor (x + 1 / 2)

/-- The number `formatNumber(num)` renders: `Math.round(num * 10000) / 10000`
(`toFixed(4)` and `Number(...)` then print exactly this value, which has at
most four decimal places). -/
def formatNumberVal (num : ℚ) : ℚ := (jsRound (num * 10000) : ℚ) / 10000

/-- The number `formatPercentage(value, total)` renders on the unguarded
path: the percentage clamped into `[0, 100]`, then rounded to two decimal
places. -/
def formatPercentageVal (value total : ℚ) : ℚ :=
  let percentage := value / total * 100
  let clamped := max 0 (min 100 percentage)
  (jsRound (clamped * 100) : ℚ) / 100

/-- `formatPercentage(value, total)` from `src/utils/formatter.ts`:
`total === 0` is guarded to `"0"`; otherwise the clamped rounded
percentage is rendered (`render` abstracts the JavaScript
number-to-string conversion). -/
def formatPercentage (render : ℚ → String) (value total : ℚ) : String :=
  if total = 0 then "0" else render (formatPercentageVal value total)

/-- `formatNumber(num)` from `src/utils/formatter.ts`. -/
def formatNumber (render : ℚ → String) (num : ℚ) : String :=
  render (formatNumberVal num)

/-- `formatCost(amount)` from `src/utils/formatter.ts`. -/
def formatCost (render : ℚ → String) (amount : ℚ) : String :=
  "$" ++ formatNumber render amount

set_option linter.unusedVariables false in
/-- `formatStatusBarText(used, limit, percentage?)` from
`src/utils/formatter.ts`. The source computes `percentValue` from the
optional argument (falling back to `parseFloat` of the formatted
percentage) but never uses it; the returned text recomputes the displayed
percentage from `used` and `limit`. -/
def formatStatusBarText (render : ℚ → String) (used limit : ℚ)
    (percentage : Option ℚ) : String :=
  let formattedUsed := formatCost render used
  let formattedLimit := formatCost render limit
  let percentValue := percentage.getD (formatPercentageVal used limit)
  let formattedPercent := formatPercentage render used limit
  formattedUsed ++ "/" ++ formattedLimit ++ " " ++ formattedPercent ++ "%"

lemma retryGo_zero {α : Type} (u i : String) (fetch : Nat → Except String α)
    (maxR attempt delay : Nat) (lastE : Option String) :
    retryGo u i fetch maxR 0 attempt delay lastE =
      ([], Except.error (retryFailMsg maxR lastE)) := rfl

lemma retryGo_step_ok {α : Type} (u i : String) (fetch : Nat → Except String α)
    (maxR remaining attempt delay : Nat) (lastE : Option String) (v : α)
    (hfa : fetch attempt = Except.ok v) :
    retryGo u i fetch maxR (remaining + 1) attempt delay lastE =
      ([Call.fetchStats u i], Except.ok v) := by
  simp [retryGo, hfa]

lemma retryGo_step_err_last {α : Type} (u i : String) (fetch : Nat → Except String α)
    (maxR attempt delay : Nat) (lastE : Option String) (e : String)
    (hfa : fetch attempt = Except.error e) :
    retryGo u i fetch maxR 1 attempt delay lastE =
      ([Call.fetchStats u i], Except.error (retryFailMsg maxR (some e))) := by
  simp [retryGo, hfa]

lemma retryGo_step_err_more {α : Type} (u i : String) (fetch : Nat → Except String α)
    (maxR s attempt delay : Nat) (lastE : Option String) (e : String)
    (hfa : fetch attempt = Except.error e) :
    retryGo u i fetch maxR (s + 2) attempt delay lastE =
      (Call.fetchStats u i :: Call.wait delay ::
         (retryGo u i fetch maxR (s + 1) (attempt + 1) (delay * 2) (some e)).1,
       (retryGo u i fetch maxR (s + 1) (attempt + 1) (delay * 2) (some e)).2) := by
  simp [retryGo, hfa]

lemma allFailTrace_one (u i : String) (delay : Nat) :
    allFailTrace u i 1 delay = [Call.fetchStats u i] := rfl

lemma allFailTrace_two (u i : String) (r delay : Nat) :
    allFailTrace u i (r + 2) delay =
      Call.fetchStats u i :: Call.wait delay :: allFailTrace u i (r + 1) (delay * 2) := by
  simp [allFailTrace]

lemma failWaitTrace_zero (u i : String) (delay : Nat) :
    failWaitTrace u i 0 delay = [] := rfl

lemma failWaitTrace_succ (u i : String) (j delay : Nat) :
    failWaitTrace u i (j + 1) delay =
      Call.fetchStats u i :: Call.wait delay :: failWaitTrace u i j (delay * 2) := rfl

lemma traceWaits_nil : traceWaits [] = [] := rfl

lemma traceWaits_fetch (u i : String) (t : List Call) :
    traceWaits (Call.fetchStats u i :: t) = traceWaits t := rfl

lemma traceWaits_wait (d : Nat) (t : List Call) :
    traceWaits (Call.wait d :: t) = d :: traceWaits t := rfl

lemma fetchCount_nil : fetchCount [] = 0 := rfl

lemma fetchCount_fetch (u i : String) (t : List Call) :
    fetchCount (Call.fetchStats u i :: t) = fetchCount t + 1 := by
  simp [fetchCount, List.countP_cons, isFetchCall]

lemma fetchCount_wait (d : Nat) (t : List Call) :
    fetchCount (Call.wait d :: t) = fetchCount t := by
  simp [fetchCount, List.countP_cons, isFetchCall]

lemma allFailTrace_fetchCount (u i : String) :
    ∀ r delay, fetchCount (allFailTrace u i (r + 1) delay) = r + 1
  | 0, delay => by
    rw [allFailTrace_one, fetchCount_fetch, fetchCount_nil]
  | r + 1, delay => by
    rw [allFailTrace_two, fetchCount_fetch, fetchCount_wait,
      allFailTrace_fetchCount u i r (delay * 2)]

lemma allFailTrace_waits (u i : String) :
    ∀ r delay, traceWaits (allFailTrace u i (r + 1) delay) =
      (List.range r).map fun k => delay * 2 ^ k
  | 0, delay => by
    rw [allFailTrace_one, traceWaits_fetch, traceWaits_nil]
    simp
  | r + 1, delay => by
    rw [allFailTrace_two, traceWaits_fetch, traceWaits_wait,
      allFailTrace_waits u i r (delay * 2), List.range_succ_eq_map, List.map_cons,
      List.map_map]
    have hcomp : ((fun k => delay * 2 ^ k) ∘ Nat.succ) = fun k => delay * 2 * 2 ^ k := by
      funext k
      simp only [Function.comp_apply, pow_succ]
      ring
    rw [hcomp]
    simp

lemma failWaitTrace_fetchCount (u i : String) :
    ∀ j delay, fetchCount (failWaitTrace u i j delay ++ [Call.fetchStats u i]) = j + 1
  | 0, delay => by
    rw [failWaitTrace_zero, List.nil_append, fetchCount_fetch, fetchCount_nil]
  | j + 1, delay => by
    rw [failWaitTrace_succ, List.cons_append, List.cons_append, fetchCount_fetch,
      fetchCount_wait, failWaitTrace_fetchCount u i j (delay * 2)]

lemma failWaitTrace_waits (u i : String) :
    ∀ j delay, traceWaits (failWaitTrace u i j delay ++ [Call.fetchStats u i]) =
      (List.range j).map fun k => delay * 2 ^ k
  | 0, delay => by
    rw [failWaitTrace_zero, List.nil_append, traceWaits_fetch, traceWaits_nil]
    simp
  | j + 1, delay => by
    rw [failWaitTrace_succ, List.cons_append, List.cons_append, traceWaits_fetch,
      traceWaits_wait, failWaitTrace_waits u i j (delay * 2), List.range_succ_eq_map,
      List.map_cons, List.map_map]
    have hcomp : ((fun k => delay * 2 ^ k) ∘ Nat.succ) = fun k => delay * 2 * 2 ^ k := by
      funext k
      simp only [Function.comp_apply, pow_succ]
      ring
    rw [hcomp]
    simp

lemma retryGo_all_fail {α : Type} (u i : String) (fetch : Nat → Except String α)
    (err : Nat → String) (maxR : Nat)
    (hf : ∀ k, fetch k = Except.error (err k)) :
    ∀ r attempt delay lastE,
      retryGo u i fetch maxR (r + 1) attempt delay lastE =
        (allFailTrace u i (r + 1) delay,
         Except.error (retryFailMsg maxR (some (err (attempt + r)))))
  | 0, attempt, delay, lastE => by
    rw [retryGo_step_err_last u i fetch maxR attempt delay lastE (err attempt) (hf attempt),
      allFailTrace_one, Nat.add_zero]
  | r + 1, attempt, delay, lastE => by
    rw [retryGo_step_err_more u i fetch maxR r attempt delay lastE (err attempt) (hf attempt),
      retryGo_all_fail u i fetch err maxR hf r (attempt + 1) (delay * 2) (some (err attempt)),
      allFailTrace_two]
    have h1 : attempt + 1 + r = attempt + (r + 1) := by omega
    rw [h1]

lemma retryGo_success {α : Type} (u i : String) (fetch : Nat → Except String α)
    (maxR : Nat) (v : α) :
    ∀ j r attempt delay lastE, j ≤ r →
      (∀ k, k < j → ∃ e, fetch (attempt + k) = Except.error e) →
      fetch (attempt + j) = Except.ok v →
      retryGo u i fetch maxR (r + 1) attempt delay lastE =
        (failWaitTrace u i j delay ++ [Call.fetchStats u i], Except.ok v)
  | 0, r, attempt, delay, lastE => by
    intro _ _ hok
    rw [Nat.add_zero] at hok
    rw [retryGo_step_ok u i fetch maxR r attempt delay lastE v hok, failWaitTrace_zero,
      List.nil_append]
  | j + 1, r, attempt, delay, lastE => by
    intro hjr hfail hok
    obtain ⟨e0, he0⟩ := hfail 0 (Nat.succ_pos j)
    rw [Nat.add_zero] at he0
    obtain ⟨s, rfl⟩ : ∃ s, r = s + 1 := ⟨r - 1, by omega⟩
    have hfail2 : ∀ k, k < j → ∃ e, fetch (attempt + 1 + k) = Except.error e := by
      intro k hk
      have h := hfail (k + 1) (by omega)
      rwa [show attempt + (k + 1) = attempt + 1 + k by omega] at h
    have hok2 : fetch (attempt + 1 + j) = Except.ok v := by
      rwa [show attempt + (j + 1) = attempt + 1 + j by omega] at hok
    rw [retryGo_step_err_more u i fetch maxR s attempt delay lastE e0 he0,
      retryGo_success u i fetch maxR v j s (attempt + 1) (delay * 2) (some e0)
        (by omega) hfail2 hok2,
      failWaitTrace_succ, List.cons_append, List.cons_append]

lemma retryGo_calls {α : Type} (u i : String) (fetch : Nat → Except String α) (maxR : Nat) :
    ∀ remaining attempt delay lastE c,
      c ∈ (retryGo u i fetch maxR remaining attempt delay lastE).1 →
      c = Call.fetchStats u i ∨ ∃ ms, c = Call.wait ms
  | 0, attempt, delay, lastE, c => by
    intro hc
    rw [retryGo_zero] at hc
    simp at hc
  | 1, attempt, delay, lastE, c => by
    intro hc
    cases hfa : fetch attempt with
    | ok v =>
      rw [retryGo_step_ok u i fetch maxR 0 attempt delay lastE v hfa] at hc
      simp at hc
      exact Or.inl hc
    | error e =>
      rw [retryGo_step_err_last u i fetch maxR attempt delay lastE e hfa] at hc
      simp at hc
      exact Or.inl hc
  | s + 2, attempt, delay, lastE, c => by
    intro hc
    cases hfa : fetch attempt with
    | ok v =>
      rw [retryGo_step_ok u i fetch maxR (s + 1) attempt delay lastE v hfa] at hc
      simp at hc
      exact Or.inl hc
    | error e =>
      rw [retryGo_step_err_more u i fetch maxR s attempt delay lastE e hfa] at hc
      simp only [List.mem_cons] at hc
      rcases hc with hc | hc | hc
      · exact Or.inl hc
      · exact Or.inr ⟨delay, hc⟩
      · exact retryGo_calls u i fetch maxR (s + 1) (attempt + 1) (delay * 2) (some e) c hc

lemma retryGo_resolveCount {α : Type} (u i : String) (fetch : Nat → Except String α)
    (maxR remaining attempt delay : Nat) (lastE : Option String) :
    resolveCount (retryGo u i fetch maxR remaining attempt delay lastE).1 = 0 := by
  rw [resolveCount, List.countP_eq_zero]
  intro c hc
  rcases retryGo_calls u i fetch maxR remaining attempt delay lastE c hc with h | ⟨ms, h⟩ <;>
    subst h <;> simp [isResolveCall]

/-- Claim C1: with `maxRetries = n ≥ 1` and initial delay `d`, a permanently
failing fetch gives exactly `n` attempts and the waits
`d·2^0, …, d·2^(n-2)` (so `n - 1` waits, the k-th lasting `d·2^(k-1)`);
and when the first success is at attempt `j ≤ n`, the loop returns that
payload after exactly `j` attempts and the `j - 1` waits already taken. -/
theorem C1_retry_schedule (α : Type) (n d : Nat) (url id : String)
    (fetch : Nat → Except String α) (err : Nat → String) :
    (1 ≤ n → (∀ k, fetch k = Except.error (err k)) →
      fetchCount (fetchRelayStatsWithRetry url id fetch n d).1 = n ∧
      traceWaits (fetchRelayStatsWithRetry url id fetch n d).1 =
        (List.range (n - 1)).map fun k => d * 2 ^ k) ∧
    (∀ j v, 1 ≤ j → j ≤ n →
      (∀ k, 1 ≤ k → k < j → ∃ e, fetch k = Except.error e) →
      fetch j = Except.ok v →
      (fetchRelayStatsWithRetry url id fetch n d).2 = Except.ok v ∧
      fetchCount (fetchRelayStatsWithRetry url id fetch n d).1 = j ∧
      traceWaits (fetchRelayStatsWithRetry url id fetch n d).1 =
        (List.range (j - 1)).map fun k => d * 2 ^ k) := by
  constructor
  · intro hn hf
    obtain ⟨r, rfl⟩ : ∃ r, n = r + 1 := ⟨n - 1, by omega⟩
    rw [fetchRelayStatsWithRetry, retryGo_all_fail url id fetch err (r + 1) hf r 1 d none]
    exact ⟨allFailTrace_fetchCount url id r d, by
      rw [allFailTrace_waits url id r d]
      simp⟩
  · intro j v hj1 hjn hfail hok
    obtain ⟨j', rfl⟩ : ∃ j', j = j' + 1 := ⟨j - 1, by omega⟩
    obtain ⟨r, rfl⟩ : ∃ r, n = r + 1 := ⟨n - 1, by omega⟩
    have hfail' : ∀ k, k < j' → ∃ e, fetch (1 + k) = Except.error e := by
      intro k hk
      have h := hfail (k + 1) (by omega) (by omega)
      rwa [show k + 1 = 1 + k by omega] at h
    have hok' : fetch (1 + j') = Except.ok v := by
      rwa [show j' + 1 = 1 + j' by omega] at hok
    have h := retryGo_success url id fetch (r + 1) v j' r 1 d none (by omega) hfail' hok'
    rw [fetchRelayStatsWithRetry, h]
    refine ⟨rfl, ?_, ?_⟩
    · exact failWaitTrace_fetchCount url id j' d
    · rw [failWaitTrace_waits url id j' d]
      simp

/-- Claim C1 witness: three permanently failing attempts with the default
budget `maxRetries = 3`, `retryDelay = 1000` — three attempts, waits
1000 ms then 2000 ms. -/
theorem C1_retry_schedule_witness :
    fetchCount (fetchRelayStatsWithRetry "https://example.com" "api-id"
        (fun _ => (Except.error "boom" : Except String Nat)) 3 1000).1 = 3 ∧
    traceWaits (fetchRelayStatsWithRetry "https://example.com" "api-id"
        (fun _ => (Except.error "boom" : Except String Nat)) 3 1000).1 =
      (List.range 2).map fun k => 1000 * 2 ^ k :=
  (C1_retry_schedule Nat 3 1000 "https://example.com" "api-id"
      (fun _ => Except.error "boom") (fun _ => "boom")).1 (by omega) (fun _ => rfl)

/-- Claim C7: when all `maxRetries = n ≥ 1` attempts fail, the loop fails
with exactly the wrapped message `API 请求失败，已重试 n 次。最后错误：…`,
which contains the attempt count and the last underlying error's message;
and whenever some attempt succeeds (attempts remained available), the
result is that success, not the wrapped error. -/
theorem C7_retry_exhaustion_error (α : Type) (n d : Nat) (url id : String)
    (fetch : Nat → Except String α) (err : Nat → String) :
    (1 ≤ n → (∀ k, fetch k = Except.error (err k)) →
      (fetchRelayStatsWithRetry url id fetch n d).2 =
        Except.error ("API 请求失败，已重试 " ++ toString n ++ " 次。最后错误：" ++ err n) ∧
      ∃ s1 s2 : String,
        "API 请求失败，已重试 " ++ toString n ++ " 次。最后错误：" ++ err n =
          s1 ++ toString n ++ s2 ++ err n) ∧
    (∀ j v, 1 ≤ j → j ≤ n →
      (∀ k, 1 ≤ k → k < j → ∃ e, fetch k = Except.error e) →
      fetch j = Except.ok v →
      (fetchRelayStatsWithRetry url id fetch n d).2 = Except.ok v) := by
  constructor
  · intro hn hf
    obtain ⟨r, rfl⟩ : ∃ r, n = r + 1 := ⟨n - 1, by omega⟩
    rw [fetchRelayStatsWithRetry, retryGo_all_fail url id fetch err (r + 1) hf r 1 d none]
    refine ⟨?_, "API 请求失败，已重试 ", " 次。最后错误：", rfl⟩
    have h1 : 1 + r = r + 1 := by omega
    simp [retryFailMsg, h1]
  · intro j v hj1 hjn hfail hok
    obtain ⟨j', rfl⟩ : ∃ j', j = j' + 1 := ⟨j - 1, by omega⟩
    obtain ⟨r, rfl⟩ : ∃ r, n = r + 1 := ⟨n - 1, by omega⟩
    have hfail' : ∀ k, k < j' → ∃ e, fetch (1 + k) = Except.error e := by
      intro k hk
      have h := hfail (k + 1) (by omega) (by omega)
      rwa [show k + 1 = 1 + k by omega] at h
    have hok' : fetch (1 + j') = Except.ok v := by
      rwa [show j' + 1 = 1 + j' by omega] at hok
    rw [fetchRelayStatsWithRetry,
      retryGo_success url id fetch (r + 1) v j' r 1 d none (by omega) hfail' hok']

/-- Claim C7 witness: three failing attempts with `maxRetries = 3` produce
the wrapped error naming the attempt count and the last error message. -/
theorem C7_retry_exhaustion_error_witness :
    (fetchRelayStatsWithRetry "https://example.com" "api-id"
        (fun _ => (Except.error "boom" : Except String Nat)) 3 1000).2 =
      Except.error ("API 请求失败，已重试 " ++ toString 3 ++ " 次。最后错误：" ++ "boom") ∧
    ∃ s1 s2 : String,
      "API 请求失败，已重试 " ++ toString 3 ++ " 次。最后错误：" ++ "boom" =
        s1 ++ toString 3 ++ s2 ++ "boom" :=
  (C7_retry_exhaustion_error Nat 3 1000 "https://example.com" "api-id"
      (fun _ => Except.error "boom") (fun _ => "boom")).1 (by omega) (fun _ => rfl)

/-- Claim C3: `validateApiConfig` reports the URL with precedence — whenever
`apiUrl` is blank the result is invalid and the reported `missingConfig` is
`both` exactly when the ID and the key are also both blank, and `apiUrl`
otherwise (so `("", "", "")` reports `both` and `("", "x", "")` reports
`apiUrl`). -/
theorem C3_url_precedence (parseProtocol : String → Option String)
    (apiUrl apiId : String) (apiKey : Option String)
    (hurl : isBlank apiUrl = true) :
    (validateApiConfig parseProtocol apiUrl apiId apiKey).valid = false ∧
    (validateApiConfig parseProtocol apiUrl apiId apiKey).missingConfig =
      some (if isBlank apiId && optBlank apiKey then MissingConfig.both
            else MissingConfig.apiUrl) := by
  by_cases hik : (isBlank apiId && optBlank apiKey) = true
  · simp [validateApiConfig, hurl, hik]
  · simp [validateApiConfig, hurl, hik]

/-- Claim C3 witness: the two inputs named by the claim —
`("", "", "")` reports `both`, `("", "x", "")` reports `apiUrl`. -/
theorem C3_url_precedence_witness :
    (validateApiConfig urlProtocolModel "" "" (some "")).missingConfig =
      some MissingConfig.both ∧
    (validateApiConfig urlProtocolModel "" "x" (some "")).missingConfig =
      some MissingConfig.apiUrl := by
  constructor
  · exact ((C3_url_precedence urlProtocolModel "" "" (some "") (by decide)).2).trans (by decide)
  · exact ((C3_url_precedence urlProtocolModel "" "x" (some "") (by decide)).2).trans (by decide)

/-- Claim C6 counterexample: `"httpabc://example.com"` parses with protocol
`httpabc:` — neither `http:` nor `https:` — yet `validateApiConfig`
accepts it (the source only checks `url.protocol.startsWith('http')`),
so validity does not require the scheme to be http or https. -/
theorem C6_counterexample :
    (validateApiConfig urlProtocolModel "httpabc://example.com"
        "12345678-1234-1234-1234-123456789abc" none).valid = true ∧
    urlProtocolModel "httpabc://example.com" = some "httpabc:" ∧
    "httpabc:" ≠ "http:" ∧ "httpabc:" ≠ "https:" := by
  refine ⟨rfl, rfl, by decide, by decide⟩

/-- Claim C6 amended: for a non-blank `apiUrl`, `validateApiConfig` returns
valid only if `apiUrl` parses and the resulting protocol starts with the
prefix `"http"` (which admits `http:` and `https:` but also any other
scheme beginning with `http`); a parse failure, or any parsed protocol not
starting with `"http"`, yields invalid with `missingConfig = apiUrl`. -/
theorem C6_url_scheme_gate (parseProtocol : String → Option String)
    (apiUrl apiId : String) (apiKey : Option String)
    (hurl : isBlank apiUrl = false) :
    ((validateApiConfig parseProtocol apiUrl apiId apiKey).valid = true →
      ∃ protocol, parseProtocol apiUrl = some protocol ∧
        strStartsWith protocol "http" = true) ∧
    (parseProtocol apiUrl = none →
      (validateApiConfig parseProtocol apiUrl apiId apiKey).valid = false ∧
      (validateApiConfig parseProtocol apiUrl apiId apiKey).missingConfig =
        some MissingConfig.apiUrl) ∧
    (∀ protocol, parseProtocol apiUrl = some protocol →
      strStartsWith protocol "http" = false →
      (validateApiConfig parseProtocol apiUrl apiId apiKey).valid = false ∧
      (validateApiConfig parseProtocol apiUrl apiId apiKey).missingConfig =
        some MissingConfig.apiUrl) := by
  refine ⟨?_, ?_, ?_⟩
  · intro hvalid
    cases hp : parseProtocol apiUrl with
    | none => simp [validateApiConfig, hurl, hp] at hvalid
    | some protocol =>
      by_cases hs : strStartsWith protocol "http" = true
      · exact ⟨protocol, rfl, hs⟩
      · simp [validateApiConfig, hurl, hp, hs] at hvalid
  · intro hp
    simp [validateApiConfig, hurl, hp]
  · intro protocol hp hs
    simp [validateApiConfig, hurl, hp, hs]

/-- Claim C6 amended witness: `"ftp://example.com"` parses with protocol
`ftp:`, which does not start with `http`, so the configuration is rejected
with the URL named as the missing field. -/
theorem C6_url_scheme_gate_witness :
    (validateApiConfig urlProtocolModel "ftp://example.com" "" (some "sk-1")).valid = false ∧
    (validateApiConfig urlProtocolModel "ftp://example.com" "" (some "sk-1")).missingConfig =
      some MissingConfig.apiUrl :=
  (C6_url_scheme_gate urlProtocolModel "ftp://example.com" "" (some "sk-1")
      (by decide)).2.2 "ftp:" (by decide) (by decide)

/-- Claim C9: `formatPercentage` is guarded at `total = 0`, returning the
string `"0"`, and on every other input the rendered number — the clamped
and rounded percentage `formatPercentageVal` — lies in `[0, 100]`, even
for negative values or values exceeding the total. -/
theorem C9_percentage_clamped (value total : ℚ) :
    (∀ render : ℚ → String, formatPercentage render value 0 = "0") ∧
    (total ≠ 0 →
      0 ≤ formatPercentageVal value total ∧ formatPercentageVal value total ≤ 100) := by
  constructor
  · intro render
    simp [formatPercentage]
  · intro _
    simp only [formatPercentageVal, jsRound]
    have hc0 : (0 : ℚ) ≤ max 0 (min 100 (value / total * 100)) := le_max_left 0 _
    have hc100 : max 0 (min 100 (value / total * 100)) ≤ 100 := by
      apply max_le
      · norm_num
      · exact min_le_left _ _
    constructor
    · apply div_nonneg _ (by norm_num)
      have h : (0 : ℤ) ≤ Int.floor (max 0 (min 100 (value / total * 100)) * 100 + 1 / 2) := by
        apply Int.floor_nonneg.mpr
        nlinarith [hc0]
      exact_mod_cast h
    · rw [div_le_iff₀ (by norm_num : (0 : ℚ) < 100)]
      have h : Int.floor (max 0 (min 100 (value / total * 100)) * 100 + 1 / 2) < 10001 := by
        apply Int.floor_lt.mpr
        push_cast
        nlinarith [hc100]
      have h2 : Int.floor (max 0 (min 100 (value / total * 100)) * 100 + 1 / 2) ≤ 10000 := by
        omega
      calc ((Int.floor (max 0 (min 100 (value / total * 100)) * 100 + 1 / 2) : ℤ) : ℚ)
          ≤ 10000 := by exact_mod_cast h2
        _ = 100 * 100 := by norm_num

/-- Claim C9 witness: at `total = 0` the guard fires, and at
`(value, total) = (5, 2)` (a 250% raw ratio) the rendered number is
clamped into `[0, 100]`. -/
theorem C9_percentage_clamped_witness :
    formatPercentage (fun _ => "rendered") 5 0 = "0" ∧
    (0 ≤ formatPercentageVal 5 2 ∧ formatPercentageVal 5 2 ≤ 100) :=
  ⟨(C9_percentage_clamped 5 0).1 (fun _ => "rendered"),
   (C9_percentage_clamped 5 2).2 (by norm_num)⟩

/-- Claim C10: `formatStatusBarText` ignores its optional `percentage`
argument — for any two values (including the absent one) the rendered
status-bar text is identical, because the displayed percent is always
recomputed from `used` and `limit`. -/
theorem C10_percentage_arg_ignored (render : ℚ → String) (used limit : ℚ)
    (p1 p2 : Option ℚ) :
    formatStatusBarText render used limit p1 = formatStatusBarText render used limit p2 := rfl

/-- Claim C2 counterexample: an explicit `保持当前配置` (keep current)
choice also disables watching — the resulting state has the watcher
stopped and the persisted flag cleared, contradicting the claim that only
dismissal disables. -/
theorem C2_counterexample :
    (promptUserChoice ⟨"new-key", "https://new.example"⟩
        (some ⟨"old-key", "https://old.example"⟩)
        (some keepCurrentConfigButton)
        ⟨true, true, some ⟨"old-key", "https://old.example"⟩⟩).1 =
      ⟨false, false, some ⟨"old-key", "https://old.example"⟩⟩ := by
  rfl

/-- Claim C2 amended: in the Prompting state, an explicit `保持当前配置`
(keep current) choice and a dismissal with no selection behave
identically: both keep the current configuration and disable watching
(watcher stopped, persisted flag cleared). Choosing the new configuration
applies it without touching the watch state, and opening settings leaves
the state unchanged. -/
theorem C2_keep_and_dismiss_disable (newConfig : Config) (currentConfig : Option Config)
    (choice : Option String) (s : WatchState) :
    ((choice = none ∨ choice = some keepCurrentConfigButton) →
      (promptUserChoice newConfig currentConfig choice s).1 =
        ⟨false, false, s.vsConfig⟩) ∧
    (choice = some useNewConfigButton →
      (promptUserChoice newConfig currentConfig choice s).1 =
        ⟨s.watcherActive, s.watchEnabled, some newConfig⟩) ∧
    (choice = some openSettingsButton →
      (promptUserChoice newConfig currentConfig choice s).1 = s) := by
  refine ⟨?_, ?_, ?_⟩
  · rintro (rfl | rfl)
    · simp [promptUserChoice, disableWatching]
    · simp [promptUserChoice, disableWatching, keepCurrentConfigButton, useNewConfigButton]
  · rintro rfl
    simp [promptUserChoice, applyNewConfig]
  · rintro rfl
    simp [promptUserChoice, openSettingsButton, useNewConfigButton, keepCurrentConfigButton]

/-- Claim C2 amended witness: dismissing the prompt (no selection) clears
the flag and stops the watcher while keeping the stored configuration. -/
theorem C2_keep_and_dismiss_disable_witness :
    (promptUserChoice ⟨"new-key", "https://new.example"⟩ none none
        ⟨true, true, none⟩).1 = ⟨false, false, none⟩ :=
  (C2_keep_and_dismiss_disable ⟨"new-key", "https://new.example"⟩ none none
      ⟨true, true, none⟩).1 (Or.inl rfl)

/-- Claim C5: the reconciler's Checking step is gated on both fields — if
the freshly read file lacks `apiKey` or `apiUrl` (absent or empty), the
check returns with no effects and the state untouched; conversely a prompt
is only ever shown when both fields were present and non-empty. -/
theorem C5_checking_requires_both_fields (cs : ClaudeSettings)
    (choice : Option String) (s : WatchState) :
    ((cs.apiKey = none ∨ cs.apiKey = some "" ∨ cs.apiUrl = none ∨ cs.apiUrl = some "") →
      checkAndHandleConfigChange (Except.ok cs) choice s = (s, [])) ∧
    (∀ nc cur, Effect.prompt nc cur ∈ (checkAndHandleConfigChange (Except.ok cs) choice s).2 →
      ∃ k u, cs.apiKey = some k ∧ cs.apiUrl = some u ∧ k ≠ "" ∧ u ≠ "") := by
  obtain ⟨ok, ou⟩ := cs
  constructor
  · intro h
    rcases ok with _ | k
    · rcases ou with _ | u <;> simp [checkAndHandleConfigChange]
    · rcases ou with _ | u
      · simp [checkAndHandleConfigChange]
      · have hku : k = "" ∨ u = "" := by
          rcases h with h | h | h | h
          · exact absurd h (by simp)
          · exact Or.inl (by injection h)
          · exact absurd h (by simp)
          · exact Or.inr (by injection h)
        rcases hku with rfl | rfl <;> simp [checkAndHandleConfigChange]
  · intro nc cur hmem
    match ok, ou with
    | none, none => simp [checkAndHandleConfigChange] at hmem
    | none, some u => simp [checkAndHandleConfigChange] at hmem
    | some k, none => simp [checkAndHandleConfigChange] at hmem
    | some k, some u =>
      by_cases hk : k = ""
      · subst hk
        simp [checkAndHandleConfigChange] at hmem
      · by_cases hu : u = ""
        · subst hu
          simp [checkAndHandleConfigChange] at hmem
        · exact ⟨k, u, rfl, rfl, hk, hu⟩

/-- Claim C5 witness: a file with an empty `apiKey` (and a present URL)
leaves the state untouched and produces no effects. -/
theorem C5_checking_requires_both_fields_witness :
    checkAndHandleConfigChange (Except.ok ⟨some "", some "https://x.example"⟩) none
      ⟨true, true, none⟩ = (⟨true, true, none⟩, []) :=
  (C5_checking_requires_both_fields ⟨some "", some "https://x.example"⟩ none
      ⟨true, true, none⟩).1 (Or.inr (Or.inl rfl))

/-- Claim C8: a read/parse error from the credentials file is absorbed
inside the Checking step — the check returns normally with no user-facing
effect and the watch state unchanged (the source's `catch` only logs). -/
theorem C8_read_error_silent (e : String) (choice : Option String) (s : WatchState) :
    checkAndHandleConfigChange (Except.error e) choice s = (s, []) := rfl

/-- Claim C4: when the configuration is valid with a blank `apiId` and a
non-blank `apiKey`, one refresh cycle (`updateStats`) makes exactly one
key→id resolution call carrying the `apiKey`, the resolution precedes the
data fetch, and (when resolution succeeds) every subsequent stats request
uses the returned id; when `apiId` is already present, no resolution call
is made. -/
theorem C4_identifier_resolution (α : Type) (parseProtocol : String → Option String)
    (cfg : PluginConfig) (resolve : Except String String)
    (fetch : Nat → Except String α) :
    ((validateApiConfig parseProtocol cfg.apiUrl cfg.apiId (some cfg.apiKey)).valid = true →
      isBlank cfg.apiId = true → isBlank cfg.apiKey = false →
      resolveCount (updateStats parseProtocol cfg resolve fetch).1 = 1 ∧
      (updateStats parseProtocol cfg resolve fetch).1.head? =
        some (Call.resolveId cfg.apiUrl cfg.apiKey) ∧
      (∀ id, resolve = Except.ok id →
        ∀ c ∈ (updateStats parseProtocol cfg resolve fetch).1.tail,
          c = Call.fetchStats cfg.apiUrl id ∨ ∃ ms, c = Call.wait ms)) ∧
    (isBlank cfg.apiId = false →
      resolveCount (updateStats parseProtocol cfg resolve fetch).1 = 0) := by
  constructor
  · intro hvalid hid hkey
    cases hres : resolve with
    | error e =>
      refine ⟨?_, ?_, ?_⟩ <;>
        simp [updateStats, hvalid, hid, hkey, hres, resolveCount, List.countP_cons,
          isResolveCall]
    | ok id0 =>
      have htrace : (updateStats parseProtocol cfg (Except.ok id0) fetch).1 =
          Call.resolveId cfg.apiUrl cfg.apiKey ::
            (fetchRelayStatsWithRetry cfg.apiUrl id0 fetch 3 1000).1 := by
        simp [updateStats, hvalid, hid, hkey]
      refine ⟨?_, ?_, ?_⟩
      · rw [htrace, fetchRelayStatsWithRetry]
        have h0 := retryGo_resolveCount cfg.apiUrl id0 fetch 3 3 1 1000 none
        simp [resolveCount, List.countP_cons, isResolveCall] at h0 ⊢
        exact h0
      · rw [htrace]
        rfl
      · intro id hid2 c hc
        injection hid2 with h
        subst h
        rw [htrace] at hc
        simp only [List.tail_cons] at hc
        rw [fetchRelayStatsWithRetry] at hc
        exact retryGo_calls cfg.apiUrl id0 fetch 3 3 1 1000 none c hc
  · intro hid
    by_cases hv :
        (validateApiConfig parseProtocol cfg.apiUrl cfg.apiId (some cfg.apiKey)).valid = false
    · simp [updateStats, hv, resolveCount]
    · have hcond : (isBlank cfg.apiId && !(isBlank cfg.apiKey)) = false := by
        rw [hid]
        simp
      have htrace : (updateStats parseProtocol cfg resolve fetch).1 =
          (fetchRelayStatsWithRetry cfg.apiUrl cfg.apiId fetch 3 1000).1 := by
        simp [updateStats, hv, hcond]
      rw [htrace, fetchRelayStatsWithRetry]
      exact retryGo_resolveCount cfg.apiUrl cfg.apiId fetch 3 3 1 1000 none

/-- Claim C4 witness: a valid URL with an empty `apiId` and a present
`apiKey` — the trace starts with the single resolution call, and the rest
of the trace fetches with the resolved id. -/
theorem C4_identifier_resolution_witness :
    resolveCount (updateStats urlProtocolModel
        ⟨"https://example.com", "", "sk-test-1"⟩ (Except.ok "resolved-id")
        (fun _ => (Except.ok 0 : Except String Nat))).1 = 1 ∧
    (updateStats urlProtocolModel ⟨"https://example.com", "", "sk-test-1"⟩
        (Except.ok "resolved-id") (fun _ => (Except.ok 0 : Except String Nat))).1.head? =
      some (Call.resolveId "https://example.com" "sk-test-1") ∧
    (∀ id, (Except.ok "resolved-id" : Except String String) = Except.ok id →
      ∀ c ∈ (updateStats urlProtocolModel ⟨"https://example.com", "", "sk-test-1"⟩
          (Except.ok "resolved-id") (fun _ => (Except.ok 0 : Except String Nat))).1.tail,
        c = Call.fetchStats "https://example.com" id ∨ ∃ ms, c = Call.wait ms) :=
  (C4_identifier_resolution Nat urlProtocolModel ⟨"https://example.com", "", "sk-test-1"⟩
      (Except.ok "resolved-id") (fun _ => Except.ok 0)).1 (by rfl) (by rfl) (by rfl)

end RelayMeter
